import Mathlib

/-!
Verification of the transaction/savepoint manager, the prepared-statement
cache, and the connection-establishment logic of a multi-backend SQL client
library (a shallow embedding of the Rust sources).

Machine integers (`usize`, `u8`, `u32`) are modelled as `Nat`; a `usize`
subtraction that would underflow (which panics in the source under debug
assertions) is modelled by `Option`, with `none` standing for the panic.
Fallible async operations take an explicit outcome argument standing for
the result of the server round trip.
-/

namespace Sqlx

/-- Rust unsigned subtraction `a - b`: panics on underflow, modelled as
`none`. -/
def checkedSub (a b : Nat) : Option Nat :=
  if b ≤ a then some (a - b) else none

/-- From sqlx-core/src/transaction.rs, `begin_ansi_transaction_sql`:
emits `BEGIN` at depth 0, else a `SAVEPOINT` statement named by the depth. -/
def begin_ansi_transaction_sql (depth : Nat) : String :=
  if depth = 0 then "BEGIN"
  else "SAVEPOINT _sqlx_savepoint_" ++ toString depth

/-- From sqlx-core/src/transaction.rs, `commit_ansi_transaction_sql`:
emits `COMMIT` at depth 1, else a `RELEASE SAVEPOINT` statement computed
from `depth - 1` (underflows, i.e. panics, at depth 0). -/
def commit_ansi_transaction_sql (depth : Nat) : Option String :=
  if depth = 1 then some "COMMIT"
  else (checkedSub depth 1).map
    (fun d => "RELEASE SAVEPOINT _sqlx_savepoint_" ++ toString d)

/-- From sqlx-core/src/transaction.rs, `rollback_ansi_transaction_sql`:
emits `ROLLBACK` at depth 1, else a `ROLLBACK TO SAVEPOINT` statement
computed from `depth - 1` (underflows, i.e. panics, at depth 0). -/
def rollback_ansi_transaction_sql (depth : Nat) : Option String :=
  if depth = 1 then some "ROLLBACK"
  else (checkedSub depth 1).map
    (fun d => "ROLLBACK TO SAVEPOINT _sqlx_savepoint_" ++ toString d)

/-- Claim C1: the transaction SQL generators produce exactly the specified
text for every depth: `begin 0 = "BEGIN"`, `begin d = "SAVEPOINT
_sqlx_savepoint_d"` for `d ≥ 1`; `commit 1 = "COMMIT"`, `commit d =
"RELEASE SAVEPOINT _sqlx_savepoint_(d-1)"` for `d ≥ 2`; `rollback 1 =
"ROLLBACK"`, `rollback d = "ROLLBACK TO SAVEPOINT _sqlx_savepoint_(d-1)"`
for `d ≥ 2`. -/
theorem c1_transaction_sql_text :
    begin_ansi_transaction_sql 0 = "BEGIN"
  ∧ (∀ d, 1 ≤ d →
      begin_ansi_transaction_sql d = "SAVEPOINT _sqlx_savepoint_" ++ toString d)
  ∧ commit_ansi_transaction_sql 1 = some "COMMIT"
  ∧ (∀ d, 2 ≤ d →
      commit_ansi_transaction_sql d
        = some ("RELEASE SAVEPOINT _sqlx_savepoint_" ++ toString (d - 1)))
  ∧ rollback_ansi_transaction_sql 1 = some "ROLLBACK"
  ∧ (∀ d, 2 ≤ d →
      rollback_ansi_transaction_sql d
        = some ("ROLLBACK TO SAVEPOINT _sqlx_savepoint_" ++ toString (d - 1))) := by
  refine ⟨rfl, ?_, rfl, ?_, rfl, ?_⟩
  · intro d hd
    have : d ≠ 0 := by omega
    simp [begin_ansi_transaction_sql, this]
  · intro d hd
    have h1 : d ≠ 1 := by omega
    have h2 : 1 ≤ d := by omega
    simp [commit_ansi_transaction_sql, checkedSub, h1, h2]
  · intro d hd
    have h1 : d ≠ 1 := by omega
    have h2 : 1 ≤ d := by omega
    simp [rollback_ansi_transaction_sql, checkedSub, h1, h2]

/-- Witness for C1 at concrete depths. -/
theorem c1_transaction_sql_text_witness :
    begin_ansi_transaction_sql 3 = "SAVEPOINT _sqlx_savepoint_" ++ toString 3
  ∧ commit_ansi_transaction_sql 3
      = some ("RELEASE SAVEPOINT _sqlx_savepoint_" ++ toString (3 - 1))
  ∧ rollback_ansi_transaction_sql 2
      = some ("ROLLBACK TO SAVEPOINT _sqlx_savepoint_" ++ toString (2 - 1)) :=
  ⟨c1_transaction_sql_text.2.1 3 (by decide),
   c1_transaction_sql_text.2.2.2.1 3 (by decide),
   c1_transaction_sql_text.2.2.2.2.2 2 (by decide)⟩

/-- Modelled from the spec: the marker recorded on the connection when an
operation has been queued whose server reply is still owed (pending replies
must be drained in FIFO order before the next command); only the
result-expected variant is used by the transaction manager. -/
inductive Waiting
  | result
deriving Repr, DecidableEq

/-- An outgoing MySQL packet, identified by what the connection writes:
a text-protocol query, or a statement-deallocation (`StmtClose`) carrying
the server-side statement id. -/
inductive MySqlPacket
  | query (sql : String)
  | stmtClose (statement : Nat)
deriving Repr, DecidableEq

/-- Modelled from the spec: the observable state of the buffered MySQL
stream: the queue of owed replies, the packet sequence counter, the packets
written so far, and a count of server replies already consumed (an
operation that awaits the server increments it; a queued-only write does
not). -/
structure MySqlStream where
  waiting : List Waiting
  sequence_id : Nat
  wbuf : List MySqlPacket
  replies_read : Nat
deriving Repr, DecidableEq

/-- Modelled from the spec: a bounded least-recently-used map from query
text to a cached statement; entries are kept least-recently-used first. -/
structure StatementCache (α : Type) where
  capacity : Nat
  entries : List (String × α)
deriving Repr, DecidableEq

/-- Cache membership by exact query text. -/
def StatementCache.contains_key {α : Type} (c : StatementCache α) (q : String) : Bool :=
  c.entries.any (fun e => e.1 == q)

/-- Lookup by exact query text (first match, least-recently-used first). -/
def StatementCache.lookup {α : Type} (c : StatementCache α) (q : String) : Option α :=
  (c.entries.find? (fun e => e.1 == q)).map (fun e => e.2)

/-- Number of live cache entries. -/
def StatementCache.len {α : Type} (c : StatementCache α) : Nat :=
  c.entries.length

/-- Modelled from the spec: insert places the entry at the most-recent end
and evicts from the least-recently-used end when over capacity. -/
def StatementCache.insert {α : Type} (c : StatementCache α) (q : String) (v : α) :
    StatementCache α :=
  let es := c.entries.filter (fun e => !(e.1 == q)) ++ [(q, v)]
  { c with entries := es.drop (es.length - c.capacity) }

/-- Modelled from the spec: refresh the recency of the entry for `q`,
storing the (possibly mutated) value `v`. -/
def StatementCache.touch {α : Type} (c : StatementCache α) (q : String) (v : α) :
    StatementCache α :=
  { c with entries := c.entries.filter (fun e => !(e.1 == q)) ++ [(q, v)] }

/-- Modelled from the spec: pop the least-recently-used entry, if any. -/
def StatementCache.remove_lru {α : Type} (c : StatementCache α) :
    Option (α × StatementCache α) :=
  match c.entries with
  | [] => none
  | e :: rest => some (e.2, { c with entries := rest })

/-- From sqlx-mysql/src/connection/mod.rs, `MySqlConnectionInner`: the
stream, the transaction depth counter, and the statement cache (query text
to server-side statement id; the column metadata carried alongside the id
in the source plays no role here). -/
structure MySqlConnection where
  stream : MySqlStream
  transaction_depth : Nat
  cache_statement : StatementCache Nat
deriving Repr, DecidableEq

/-- Modelled from the spec: `conn.execute(sql)` sends the statement as a
text-protocol query and awaits the server reply; `ok` stands for the
outcome of that round trip. On an error return the transaction depth and
the rest of the connection are left as they were. -/
def MySqlConnection.execute (conn : MySqlConnection) (sql : String) (ok : Bool) :
    MySqlConnection × Bool :=
  if ok then
    ({ conn with stream := { conn.stream with
        wbuf := conn.stream.wbuf ++ [MySqlPacket.query sql],
        replies_read := conn.stream.replies_read + 1 } }, true)
  else (conn, false)

/-- From sqlx-mysql/src/transaction.rs, `MySqlTransactionManager::begin`:
executes the ANSI begin statement for the current depth and, on success,
stores depth + 1. -/
def MySqlTransactionManager.begin (ok : Bool) (conn : MySqlConnection) :
    MySqlConnection × Bool :=
  let depth := conn.transaction_depth
  let r := conn.execute (begin_ansi_transaction_sql depth) ok
  if r.2 then ({ r.1 with transaction_depth := depth + 1 }, true)
  else (r.1, false)

/-- From sqlx-mysql/src/transaction.rs, `MySqlTransactionManager::commit`:
a no-op at depth 0; otherwise executes the ANSI commit statement and, on
success, stores depth - 1. `none` models a panic inside the SQL builder. -/
def MySqlTransactionManager.commit (ok : Bool) (conn : MySqlConnection) :
    Option (MySqlConnection × Bool) :=
  let depth := conn.transaction_depth
  if 0 < depth then
    match commit_ansi_transaction_sql depth with
    | none => none
    | some sql =>
      let r := conn.execute sql ok
      if r.2 then some ({ r.1 with transaction_depth := depth - 1 }, true)
      else some (r.1, false)
  else some (conn, true)

/-- From sqlx-mysql/src/transaction.rs, `MySqlTransactionManager::rollback`:
a no-op at depth 0; otherwise executes the ANSI rollback statement and, on
success, stores depth - 1. `none` models a panic inside the SQL builder. -/
def MySqlTransactionManager.rollback (ok : Bool) (conn : MySqlConnection) :
    Option (MySqlConnection × Bool) :=
  let depth := conn.transaction_depth
  if 0 < depth then
    match rollback_ansi_transaction_sql depth with
    | none => none
    | some sql =>
      let r := conn.execute sql ok
      if r.2 then some ({ r.1 with transaction_depth := depth - 1 }, true)
      else some (r.1, false)
  else some (conn, true)

/-- From sqlx-mysql/src/transaction.rs,
`MySqlTransactionManager::start_rollback`: a no-op at depth 0; otherwise it
pushes one owed-reply marker, resets the sequence counter to 0, writes the
rollback statement as a queued packet without awaiting any reply, and
stores depth - 1. `wok` stands for the outcome of the packet write; the
source calls `.expect(..)` on it, so a failed write panics, modelled as
`none`. -/
def MySqlTransactionManager.start_rollback (wok : Bool) (conn : MySqlConnection) :
    Option MySqlConnection :=
  let depth := conn.transaction_depth
  if 0 < depth then
    match rollback_ansi_transaction_sql depth with
    | none => none
    | some sql =>
      let s := conn.stream
      let s1 : MySqlStream :=
        { s with waiting := s.waiting ++ [Waiting.result], sequence_id := 0 }
      if wok then
        some { conn with
          stream := { s1 with wbuf := s1.wbuf ++ [MySqlPacket.query sql] },
          transaction_depth := depth - 1 }
      else none
  else some conn

/-- One transaction-manager operation together with the outcome of its
server round trip (for `start_rollback`, of its packet write). -/
inductive TxOp
  | beginOp (ok : Bool)
  | commitOp (ok : Bool)
  | rollbackOp (ok : Bool)
  | startRollbackOp (wok : Bool)
deriving Repr, DecidableEq

/-- One step of the transaction manager; `none` models a panic, and the
returned flag tells whether the operation succeeded. -/
def txStep (op : TxOp) (conn : MySqlConnection) : Option (MySqlConnection × Bool) :=
  match op with
  | TxOp.beginOp ok => some (MySqlTransactionManager.begin ok conn)
  | TxOp.commitOp ok => MySqlTransactionManager.commit ok conn
  | TxOp.rollbackOp ok => MySqlTransactionManager.rollback ok conn
  | TxOp.startRollbackOp wok =>
    (MySqlTransactionManager.start_rollback wok conn).map (fun c => (c, true))

/-- Run a sequence of transaction-manager operations, stopping (with
`none`) at the first panic or failed operation. -/
def txRun : List TxOp → MySqlConnection → Option MySqlConnection
  | [], conn => some conn
  | op :: ops, conn =>
    match txStep op conn with
    | none => none
    | some (conn', true) => txRun ops conn'
    | some (_, false) => none

/-- The commit SQL builder is total on positive depths. -/
theorem commit_sql_isSome (d : Nat) (hd : 1 ≤ d) :
    ∃ s, commit_ansi_transaction_sql d = some s := by
  by_cases h1 : d = 1
  · subst h1
    exact ⟨_, rfl⟩
  · refine ⟨"RELEASE SAVEPOINT _sqlx_savepoint_" ++ toString (d - 1), ?_⟩
    simp [commit_ansi_transaction_sql, checkedSub, h1, hd]

/-- The rollback SQL builder is total on positive depths. -/
theorem rollback_sql_isSome (d : Nat) (hd : 1 ≤ d) :
    ∃ s, rollback_ansi_transaction_sql d = some s := by
  by_cases h1 : d = 1
  · subst h1
    exact ⟨_, rfl⟩
  · refine ⟨"ROLLBACK TO SAVEPOINT _sqlx_savepoint_" ++ toString (d - 1), ?_⟩
    simp [rollback_ansi_transaction_sql, checkedSub, h1, hd]

/-- A sample connection at transaction depth `d`: empty reply queue, a
nonzero sequence counter, nothing written yet, an empty cache of
capacity 10. -/
def sampleConn (d : Nat) : MySqlConnection :=
  { stream := { waiting := [], sequence_id := 7, wbuf := [], replies_read := 0 },
    transaction_depth := d,
    cache_statement := { capacity := 10, entries := [] } }

/-- Evaluation: a successful begin appends the begin statement, consumes
one reply, and increments the depth. -/
theorem tmBegin_eval_ok (conn : MySqlConnection) :
    MySqlTransactionManager.begin true conn =
      ({ conn with
         stream := { conn.stream with
           wbuf := conn.stream.wbuf
             ++ [MySqlPacket.query (begin_ansi_transaction_sql conn.transaction_depth)],
           replies_read := conn.stream.replies_read + 1 },
         transaction_depth := conn.transaction_depth + 1 }, true) := rfl

/-- Evaluation: a failed begin leaves the connection unchanged. -/
theorem tmBegin_eval_err (conn : MySqlConnection) :
    MySqlTransactionManager.begin false conn = (conn, false) := rfl

/-- Evaluation: a successful commit at positive depth appends the commit
statement, consumes one reply, and decrements the depth. -/
theorem commit_eval_pos_ok (conn : MySqlConnection) (sql : String)
    (hd : 0 < conn.transaction_depth)
    (hsql : commit_ansi_transaction_sql conn.transaction_depth = some sql) :
    MySqlTransactionManager.commit true conn =
      some ({ conn with
        stream := { conn.stream with
          wbuf := conn.stream.wbuf ++ [MySqlPacket.query sql],
          replies_read := conn.stream.replies_read + 1 },
        transaction_depth := conn.transaction_depth - 1 }, true) := by
  simp only [MySqlTransactionManager.commit]
  rw [if_pos hd, hsql]
  rfl

/-- Evaluation: a failed commit at positive depth leaves the connection
unchanged. -/
theorem commit_eval_pos_err (conn : MySqlConnection) (sql : String)
    (hd : 0 < conn.transaction_depth)
    (hsql : commit_ansi_transaction_sql conn.transaction_depth = some sql) :
    MySqlTransactionManager.commit false conn = some (conn, false) := by
  simp only [MySqlTransactionManager.commit]
  rw [if_pos hd, hsql]
  rfl

/-- Evaluation: commit at depth 0 is a no-op. -/
theorem commit_eval_zero (conn : MySqlConnection) (ok : Bool)
    (hd : conn.transaction_depth = 0) :
    MySqlTransactionManager.commit ok conn = some (conn, true) := by
  simp [MySqlTransactionManager.commit, hd]

/-- Evaluation: a successful rollback at positive depth appends the
rollback statement, consumes one reply, and decrements the depth. -/
theorem rollback_eval_pos_ok (conn : MySqlConnection) (sql : String)
    (hd : 0 < conn.transaction_depth)
    (hsql : rollback_ansi_transaction_sql conn.transaction_depth = some sql) :
    MySqlTransactionManager.rollback true conn =
      some ({ conn with
        stream := { conn.stream with
          wbuf := conn.stream.wbuf ++ [MySqlPacket.query sql],
          replies_read := conn.stream.replies_read + 1 },
        transaction_depth := conn.transaction_depth - 1 }, true) := by
  simp only [MySqlTransactionManager.rollback]
  rw [if_pos hd, hsql]
  rfl

/-- Evaluation: a failed rollback at positive depth leaves the connection
unchanged. -/
theorem rollback_eval_pos_err (conn : MySqlConnection) (sql : String)
    (hd : 0 < conn.transaction_depth)
    (hsql : rollback_ansi_transaction_sql conn.transaction_depth = some sql) :
    MySqlTransactionManager.rollback false conn = some (conn, false) := by
  simp only [MySqlTransactionManager.rollback]
  rw [if_pos hd, hsql]
  rfl

/-- Evaluation: rollback at depth 0 is a no-op. -/
theorem rollback_eval_zero (conn : MySqlConnection) (ok : Bool)
    (hd : conn.transaction_depth = 0) :
    MySqlTransactionManager.rollback ok conn = some (conn, true) := by
  simp [MySqlTransactionManager.rollback, hd]

/-- Evaluation: start_rollback at positive depth with a successful packet
write pushes one owed-reply marker, zeroes the sequence counter, queues the
rollback statement without consuming any reply, and decrements the depth. -/
theorem start_rollback_eval_ok (conn : MySqlConnection) (sql : String)
    (hd : 0 < conn.transaction_depth)
    (hsql : rollback_ansi_transaction_sql conn.transaction_depth = some sql) :
    MySqlTransactionManager.start_rollback true conn =
      some { conn with
        stream := { conn.stream with
          waiting := conn.stream.waiting ++ [Waiting.result],
          sequence_id := 0,
          wbuf := conn.stream.wbuf ++ [MySqlPacket.query sql] },
        transaction_depth := conn.transaction_depth - 1 } := by
  simp only [MySqlTransactionManager.start_rollback]
  rw [if_pos hd, hsql]
  rfl

/-- Evaluation: start_rollback at positive depth with a failed packet
write panics (the source calls `.expect(..)` on the write result). -/
theorem start_rollback_eval_err (conn : MySqlConnection) (sql : String)
    (hd : 0 < conn.transaction_depth)
    (hsql : rollback_ansi_transaction_sql conn.transaction_depth = some sql) :
    MySqlTransactionManager.start_rollback false conn = none := by
  simp only [MySqlTransactionManager.start_rollback]
  rw [if_pos hd, hsql]
  rfl

/-- Evaluation: start_rollback at depth 0 is a no-op. -/
theorem start_rollback_eval_zero (conn : MySqlConnection) (wok : Bool)
    (hd : conn.transaction_depth = 0) :
    MySqlTransactionManager.start_rollback wok conn = some conn := by
  simp [MySqlTransactionManager.start_rollback, hd]

/-- Claim C2: across every transaction-manager operation, the transaction
depth moves by +1 exactly on a successful begin and by -1 exactly on a
successful commit/rollback/start_rollback taken at depth at least 1; those
three at depth 0 are no-ops that leave the connection (hence the depth,
still 0) unchanged, and a failed operation leaves the depth unchanged, so
the depth never goes below 0. -/
theorem c2_transaction_depth_invariant (conn conn' : MySqlConnection) (op : TxOp)
    (succ : Bool) (h : txStep op conn = some (conn', succ)) :
    (match op with
     | TxOp.beginOp _ =>
         (succ = true ∧ conn'.transaction_depth = conn.transaction_depth + 1)
       ∨ (succ = false ∧ conn'.transaction_depth = conn.transaction_depth)
     | _ =>
         (succ = true ∧ 1 ≤ conn.transaction_depth
            ∧ conn'.transaction_depth = conn.transaction_depth - 1)
       ∨ (conn.transaction_depth = 0 ∧ conn' = conn ∧ succ = true)
       ∨ (succ = false ∧ conn'.transaction_depth = conn.transaction_depth)) := by
  cases op with
  | beginOp ok =>
    simp only [txStep] at h
    cases ok with
    | true =>
      rw [tmBegin_eval_ok] at h
      injection h with h1
      injection h1 with hc hs
      subst hs
      subst hc
      left
      exact ⟨rfl, rfl⟩
    | false =>
      rw [tmBegin_eval_err] at h
      injection h with h1
      injection h1 with hc hs
      subst hs
      subst hc
      right
      exact ⟨rfl, rfl⟩
  | commitOp ok =>
    simp only [txStep] at h
    by_cases hd : 0 < conn.transaction_depth
    · obtain ⟨sql, hsql⟩ := commit_sql_isSome conn.transaction_depth hd
      cases ok with
      | true =>
        rw [commit_eval_pos_ok conn sql hd hsql] at h
        injection h with h1
        injection h1 with hc hs
        subst hs
        subst hc
        left
        exact ⟨rfl, hd, rfl⟩
      | false =>
        rw [commit_eval_pos_err conn sql hd hsql] at h
        injection h with h1
        injection h1 with hc hs
        subst hs
        subst hc
        right; right
        exact ⟨rfl, rfl⟩
    · have hd0 : conn.transaction_depth = 0 := by omega
      rw [commit_eval_zero conn ok hd0] at h
      injection h with h1
      injection h1 with hc hs
      subst hs
      subst hc
      right; left
      exact ⟨hd0, rfl, rfl⟩
  | rollbackOp ok =>
    simp only [txStep] at h
    by_cases hd : 0 < conn.transaction_depth
    · obtain ⟨sql, hsql⟩ := rollback_sql_isSome conn.transaction_depth hd
      cases ok with
      | true =>
        rw [rollback_eval_pos_ok conn sql hd hsql] at h
        injection h with h1
        injection h1 with hc hs
        subst hs
        subst hc
        left
        exact ⟨rfl, hd, rfl⟩
      | false =>
        rw [rollback_eval_pos_err conn sql hd hsql] at h
        injection h with h1
        injection h1 with hc hs
        subst hs
        subst hc
        right; right
        exact ⟨rfl, rfl⟩
    · have hd0 : conn.transaction_depth = 0 := by omega
      rw [rollback_eval_zero conn ok hd0] at h
      injection h with h1
      injection h1 with hc hs
      subst hs
      subst hc
      right; left
      exact ⟨hd0, rfl, rfl⟩
  | startRollbackOp wok =>
    simp only [txStep] at h
    by_cases hd : 0 < conn.transaction_depth
    · obtain ⟨sql, hsql⟩ := rollback_sql_isSome conn.transaction_depth hd
      cases wok with
      | true =>
        rw [start_rollback_eval_ok conn sql hd hsql] at h
        simp only [Option.map_some'] at h
        injection h with h1
        injection h1 with hc hs
        subst hs
        subst hc
        left
        exact ⟨rfl, hd, rfl⟩
      | false =>
        rw [start_rollback_eval_err conn sql hd hsql] at h
        simp at h
    · have hd0 : conn.transaction_depth = 0 := by omega
      rw [start_rollback_eval_zero conn wok hd0] at h
      simp only [Option.map_some'] at h
      injection h with h1
      injection h1 with hc hs
      subst hs
      subst hc
      right; left
      exact ⟨hd0, rfl, rfl⟩

/-- The connection state reached from `sampleConn 2` by one successful
commit: the release-savepoint statement has been sent, one reply consumed,
and the depth lowered to 1. -/
def c2commitResult : MySqlConnection :=
  { stream :=
      { waiting := []
        sequence_id := 7
        wbuf := [MySqlPacket.query "RELEASE SAVEPOINT _sqlx_savepoint_1"]
        replies_read := 1 }
    transaction_depth := 1
    cache_statement := { capacity := 10, entries := [] } }

/-- Witness for C2: a successful commit at depth 2 lowers the depth to 1. -/
theorem c2_transaction_depth_invariant_witness :
    (true = true ∧ 1 ≤ (sampleConn 2).transaction_depth
       ∧ c2commitResult.transaction_depth = (sampleConn 2).transaction_depth - 1)
  ∨ ((sampleConn 2).transaction_depth = 0 ∧ c2commitResult = sampleConn 2 ∧ true = true)
  ∨ (true = false ∧ c2commitResult.transaction_depth = (sampleConn 2).transaction_depth) :=
  c2_transaction_depth_invariant (sampleConn 2) c2commitResult
    (TxOp.commitOp true) true (by decide)

/-- Claim C3: start_rollback is a no-op at depth 0; at depth d ≥ 1 it
consumes no server reply, pushes exactly one owed-reply marker, resets the
packet sequence counter to 0, queues exactly the rollback statement that
rollback at depth d would send, and sets the depth to d - 1. -/
theorem c3_start_rollback_behavior (conn : MySqlConnection) (wok : Bool) :
    (conn.transaction_depth = 0 →
       MySqlTransactionManager.start_rollback wok conn = some conn)
  ∧ (1 ≤ conn.transaction_depth →
       ∃ sql, rollback_ansi_transaction_sql conn.transaction_depth = some sql
       ∧ MySqlTransactionManager.start_rollback true conn = some
           { conn with
             stream := { conn.stream with
               waiting := conn.stream.waiting ++ [Waiting.result],
               sequence_id := 0,
               wbuf := conn.stream.wbuf ++ [MySqlPacket.query sql] },
             transaction_depth := conn.transaction_depth - 1 }
       ∧ MySqlTransactionManager.rollback true conn = some
           ({ conn with
              stream := { conn.stream with
                wbuf := conn.stream.wbuf ++ [MySqlPacket.query sql],
                replies_read := conn.stream.replies_read + 1 },
              transaction_depth := conn.transaction_depth - 1 }, true)) := by
  constructor
  · intro h0
    exact start_rollback_eval_zero conn wok h0
  · intro h1
    obtain ⟨sql, hsql⟩ := rollback_sql_isSome conn.transaction_depth h1
    exact ⟨sql, hsql, start_rollback_eval_ok conn sql h1 hsql,
      rollback_eval_pos_ok conn sql h1 hsql⟩

/-- Witness for C3 at depth 2. -/
theorem c3_start_rollback_behavior_witness :
    ∃ sql, rollback_ansi_transaction_sql (sampleConn 2).transaction_depth = some sql
    ∧ MySqlTransactionManager.start_rollback true (sampleConn 2) = some
        { (sampleConn 2) with
          stream := { (sampleConn 2).stream with
            waiting := (sampleConn 2).stream.waiting ++ [Waiting.result],
            sequence_id := 0,
            wbuf := (sampleConn 2).stream.wbuf ++ [MySqlPacket.query sql] },
          transaction_depth := (sampleConn 2).transaction_depth - 1 }
    ∧ MySqlTransactionManager.rollback true (sampleConn 2) = some
        ({ (sampleConn 2) with
           stream := { (sampleConn 2).stream with
             wbuf := (sampleConn 2).stream.wbuf ++ [MySqlPacket.query sql],
             replies_read := (sampleConn 2).stream.replies_read + 1 },
           transaction_depth := (sampleConn 2).transaction_depth - 1 }, true) :=
  (c3_start_rollback_behavior (sampleConn 2) true).2 (by decide)

/-- Counterexample for C5: at depth 1, a failed packet write makes
start_rollback panic (the `.expect(..)` in the source) instead of
returning normally. -/
theorem c5_counterexample :
    (sampleConn 1).transaction_depth = 1
  ∧ MySqlTransactionManager.start_rollback false (sampleConn 1) = none :=
  ⟨rfl, rfl⟩

/-- Claim C5 (amended): start_rollback returns normally for every
connection state whenever the packet write succeeds, and always at depth 0
(where it is a no-op); a failed packet write at positive depth panics via
`.expect(..)` rather than returning. -/
theorem c5_start_rollback_returns (conn : MySqlConnection) (wok : Bool)
    (h : wok = true ∨ conn.transaction_depth = 0) :
    (MySqlTransactionManager.start_rollback wok conn).isSome = true := by
  rcases h with h | h
  · subst h
    by_cases hd : 0 < conn.transaction_depth
    · obtain ⟨sql, hsql⟩ := rollback_sql_isSome conn.transaction_depth hd
      rw [start_rollback_eval_ok conn sql hd hsql]
      rfl
    · rw [start_rollback_eval_zero conn true (by omega)]
      rfl
  · rw [start_rollback_eval_zero conn wok h]
    rfl

/-- Witness for C5 (amended) at depth 5 with a successful write. -/
theorem c5_start_rollback_returns_witness :
    (MySqlTransactionManager.start_rollback true (sampleConn 5)).isSome = true :=
  c5_start_rollback_returns (sampleConn 5) true (Or.inl rfl)

/-- Counterexample for C6: starting at depth 1, begin then commit then
rollback (all successful) leaves the counter at 0, not at 1. -/
theorem c6_counterexample :
    (sampleConn 1).transaction_depth = 1
  ∧ (txRun [TxOp.beginOp true, TxOp.commitOp true, TxOp.rollbackOp true]
       (sampleConn 1)).map MySqlConnection.transaction_depth = some 0
  ∧ ¬ (txRun [TxOp.beginOp true, TxOp.commitOp true, TxOp.rollbackOp true]
       (sampleConn 1)).map MySqlConnection.transaction_depth = some 1 := by
  decide

/-- Claim C6 (amended): for every d ≥ 1, starting from depth d, begin
reaches depth d + 1, the following commit executes at depth d + 1 and
returns the counter to d, and the final rollback executes at depth d and
leaves the counter at exactly d - 1 (not d). -/
theorem c6_begin_commit_rollback_net (conn : MySqlConnection) (d : Nat)
    (hdep : conn.transaction_depth = d) (h1 : 1 ≤ d) :
    (txRun [TxOp.beginOp true] conn).map MySqlConnection.transaction_depth
      = some (d + 1)
  ∧ (txRun [TxOp.beginOp true, TxOp.commitOp true] conn).map
      MySqlConnection.transaction_depth = some d
  ∧ (txRun [TxOp.beginOp true, TxOp.commitOp true, TxOp.rollbackOp true] conn).map
      MySqlConnection.transaction_depth = some (d - 1) := by
  obtain ⟨conn1, hc1, hd1⟩ :
      ∃ c, MySqlTransactionManager.begin true conn = (c, true)
        ∧ c.transaction_depth = d + 1 := by
    refine ⟨_, tmBegin_eval_ok conn, ?_⟩
    simp [hdep]
  obtain ⟨conn2, hc2, hd2⟩ :
      ∃ c, MySqlTransactionManager.commit true conn1 = some (c, true)
        ∧ c.transaction_depth = d := by
    obtain ⟨sql, hsql⟩ := commit_sql_isSome conn1.transaction_depth (by omega)
    refine ⟨_, commit_eval_pos_ok conn1 sql (by omega) hsql, ?_⟩
    simp [hd1]
  obtain ⟨conn3, hc3, hd3⟩ :
      ∃ c, MySqlTransactionManager.rollback true conn2 = some (c, true)
        ∧ c.transaction_depth = d - 1 := by
    obtain ⟨sql, hsql⟩ := rollback_sql_isSome conn2.transaction_depth (by omega)
    refine ⟨_, rollback_eval_pos_ok conn2 sql (by omega) hsql, ?_⟩
    simp [hd2]
  refine ⟨?_, ?_, ?_⟩
  · simp [txRun, txStep, hc1, hd1]
  · simp [txRun, txStep, hc1, hc2, hd2]
  · simp [txRun, txStep, hc1, hc2, hc3, hd3]

/-- Witness for C6 (amended) at depth 1. -/
theorem c6_begin_commit_rollback_net_witness :
    (txRun [TxOp.beginOp true, TxOp.commitOp true, TxOp.rollbackOp true]
       (sampleConn 1)).map MySqlConnection.transaction_depth = some (1 - 1) :=
  (c6_begin_commit_rollback_net (sampleConn 1) 1 rfl (by decide)).2.2

/-- Claim C10: the commit and rollback SQL builders panic (unsigned
underflow in `depth - 1`) at depth 0 and are total for every depth ≥ 1;
the in-repo callers (the MySQL manager commit and rollback) guard with
depth > 0, so they never reach the panic for any connection state and any
round-trip outcome. -/
theorem c10_sql_builders_partiality :
    commit_ansi_transaction_sql 0 = none
  ∧ rollback_ansi_transaction_sql 0 = none
  ∧ (∀ d, 1 ≤ d → (commit_ansi_transaction_sql d).isSome = true
      ∧ (rollback_ansi_transaction_sql d).isSome = true)
  ∧ (∀ (conn : MySqlConnection) (ok : Bool),
       (MySqlTransactionManager.commit ok conn).isSome = true
     ∧ (MySqlTransactionManager.rollback ok conn).isSome = true) := by
  refine ⟨rfl, rfl, ?_, ?_⟩
  · intro d hd
    obtain ⟨s1, h1⟩ := commit_sql_isSome d hd
    obtain ⟨s2, h2⟩ := rollback_sql_isSome d hd
    rw [h1, h2]
    exact ⟨rfl, rfl⟩
  · intro conn ok
    constructor
    · by_cases hd : 0 < conn.transaction_depth
      · obtain ⟨sql, hsql⟩ := commit_sql_isSome conn.transaction_depth hd
        cases ok with
        | true =>
          rw [commit_eval_pos_ok conn sql hd hsql]
          rfl
        | false =>
          rw [commit_eval_pos_err conn sql hd hsql]
          rfl
      · rw [commit_eval_zero conn ok (by omega)]
        rfl
    · by_cases hd : 0 < conn.transaction_depth
      · obtain ⟨sql, hsql⟩ := rollback_sql_isSome conn.transaction_depth hd
        cases ok with
        | true =>
          rw [rollback_eval_pos_ok conn sql hd hsql]
          rfl
        | false =>
          rw [rollback_eval_pos_err conn sql hd hsql]
          rfl
      · rw [rollback_eval_zero conn ok (by omega)]
        rfl

/-- Witness for C10 at depth 4 and at a depth-0 connection. -/
theorem c10_sql_builders_partiality_witness :
    ((commit_ansi_transaction_sql 4).isSome = true
      ∧ (rollback_ansi_transaction_sql 4).isSome = true)
  ∧ ((MySqlTransactionManager.commit false (sampleConn 0)).isSome = true
      ∧ (MySqlTransactionManager.rollback false (sampleConn 0)).isSome = true) :=
  ⟨c10_sql_builders_partiality.2.2.1 4 (by decide),
   c10_sql_builders_partiality.2.2.2 (sampleConn 0) false⟩

/-- From sqlx-core/src/transaction.rs, `Transaction`: the handle keeps the
depth captured at its own begin and an open flag (field `open` in the
source; renamed since `open` is a Lean keyword). The flag is cleared only
after a successful commit or rollback. -/
structure Transaction where
  depth : Nat
  isOpen : Bool
deriving Repr, DecidableEq

/-- From sqlx-core/src/transaction.rs, `Transaction::begin`: on a
successful manager begin the handle starts at the connection depth plus
one, open; on failure no handle is created. -/
def Transaction.begin (connDepth : Nat) (ok : Bool) : Option Transaction :=
  if ok then some { depth := connDepth + 1, isOpen := true } else none

/-- From sqlx-core/src/transaction.rs, `Transaction::commit`: runs the
manager commit and clears the open flag only on success (`self.open =
false` sits after the `?`); on error the handle is dropped still open. -/
def Transaction.commit (t : Transaction) (ok : Bool) : Transaction × Bool :=
  if ok then ({ t with isOpen := false }, true) else (t, false)

/-- From sqlx-core/src/transaction.rs, `Transaction::rollback`: runs the
manager rollback and clears the open flag only on success. -/
def Transaction.rollback (t : Transaction) (ok : Bool) : Transaction × Bool :=
  if ok then ({ t with isOpen := false }, true) else (t, false)

/-- The single explicit finishing call a handle may receive before it is
dropped. Rust ownership makes this shape exhaustive: commit and rollback
take the handle by value, so at most one such call can ever happen, and
`Drop::drop` then runs exactly once on the handle. -/
inductive FinishCall
  | commitCall (ok : Bool)
  | rollbackCall (ok : Bool)
deriving Repr, DecidableEq

/-- The handle state at drop time, after its optional finishing call. -/
def handleAtDrop (t : Transaction) : Option FinishCall → Transaction
  | none => t
  | some (FinishCall.commitCall ok) => (t.commit ok).1
  | some (FinishCall.rollbackCall ok) => (t.rollback ok).1

/-- From sqlx-core/src/transaction.rs, `impl Drop for Transaction`: drop
invokes start_rollback exactly when the handle is still open; since drop
runs exactly once, this is the number of drop-path rollback intents the
handle fires over its whole life. -/
def dropRollbackCount (t : Transaction) (f : Option FinishCall) : Nat :=
  if (handleAtDrop t f).isOpen then 1 else 0

/-- Whether the finishing call, if any, succeeded. -/
def finishSucceeded : Option FinishCall → Bool
  | some (FinishCall.commitCall ok) => ok
  | some (FinishCall.rollbackCall ok) => ok
  | none => false

/-- Counterexample for C4: a handle whose commit was explicitly called but
returned an error is still open at drop time, so the drop-path rollback
fires even though commit was called on the handle. -/
theorem c4_counterexample :
    dropRollbackCount { depth := 1, isOpen := true }
      (some (FinishCall.commitCall false)) = 1
  ∧ some (FinishCall.commitCall false) ≠ (none : Option FinishCall) := by
  decide

/-- Claim C4 (amended): for an open handle, the drop-path rollback fires
at most once over the life of the handle; it fires exactly once when
neither commit nor rollback was called; and in general it fires exactly
when no successful commit or rollback happened — a commit or rollback
that was called but returned an error leaves the handle open and the drop
rollback still fires. -/
theorem c4_drop_rollback_once (t : Transaction) (f : Option FinishCall)
    (hopen : t.isOpen = true) :
    dropRollbackCount t f ≤ 1
  ∧ (f = none → dropRollbackCount t f = 1)
  ∧ dropRollbackCount t f = (if finishSucceeded f then 0 else 1) := by
  cases f with
  | none =>
    simp [dropRollbackCount, handleAtDrop, finishSucceeded, hopen]
  | some c =>
    cases c with
    | commitCall ok =>
      cases ok <;>
        simp [dropRollbackCount, handleAtDrop, finishSucceeded,
          Transaction.commit, hopen]
    | rollbackCall ok =>
      cases ok <;>
        simp [dropRollbackCount, handleAtDrop, finishSucceeded,
          Transaction.rollback, hopen]

/-- Witness for C4 (amended): an open handle with a successful rollback. -/
theorem c4_drop_rollback_once_witness :
    dropRollbackCount { depth := 1, isOpen := true }
        (some (FinishCall.rollbackCall true)) ≤ 1
  ∧ ((some (FinishCall.rollbackCall true) : Option FinishCall) = none →
       dropRollbackCount { depth := 1, isOpen := true }
         (some (FinishCall.rollbackCall true)) = 1)
  ∧ dropRollbackCount { depth := 1, isOpen := true }
        (some (FinishCall.rollbackCall true))
      = (if finishSucceeded (some (FinishCall.rollbackCall true)) then 0 else 1) :=
  c4_drop_rollback_once { depth := 1, isOpen := true }
    (some (FinishCall.rollbackCall true)) rfl

/-- find? over a list that ends in the only matching element returns that
element. -/
theorem find_append_last {α : Type} (l : List (String × α)) (q : String) (v : α)
    (h : ∀ e ∈ l, (e.1 == q) = false) :
    (l ++ [(q, v)]).find? (fun e => e.1 == q) = some (q, v) := by
  induction l with
  | nil => simp
  | cons x xs ih =>
    have hx := h x (List.mem_cons_self x xs)
    rw [List.cons_append, List.find?_cons_of_neg _ (by simp [hx])]
    exact ih (fun e he => h e (List.mem_cons_of_mem x he))

/-- Every element surviving the not-this-key filter has a different key. -/
theorem filter_ne_key {α : Type} (l : List (String × α)) (q : String) :
    ∀ e ∈ l.filter (fun e => !(e.1 == q)), (e.1 == q) = false := by
  intro e he
  have hm := List.mem_filter.mp he
  simpa using hm.2

/-- Lookup succeeds exactly when the key is present. -/
theorem StatementCache.lookup_isSome {α : Type} (c : StatementCache α) (q : String) :
    (c.lookup q).isSome = c.contains_key q := by
  unfold StatementCache.lookup StatementCache.contains_key
  cases hf : c.entries.find? (fun e => e.1 == q) with
  | none =>
    rw [List.find?_eq_none] at hf
    simp only [Option.map_none', Option.isSome_none]
    symm
    rw [List.any_eq_false]
    intro x hx
    simpa using hf x hx
  | some e =>
    simp only [Option.map_some', Option.isSome_some]
    symm
    rw [List.any_eq_true]
    exact ⟨e, List.mem_of_find?_eq_some hf,
      List.find?_some (p := fun x : String × α => x.1 == q) hf⟩

/-- After a recency refresh storing `v` under `q`, lookup of `q` yields
`v`. -/
theorem StatementCache.lookup_touch {α : Type} (c : StatementCache α) (q : String)
    (v : α) : (c.touch q v).lookup q = some v := by
  unfold StatementCache.touch StatementCache.lookup
  rw [find_append_last _ q v (filter_ne_key c.entries q)]
  rfl

/-- After inserting `v` under `q` into a cache of nonzero capacity, lookup
of `q` yields `v` (the just-inserted most-recent entry is never the one
evicted). -/
theorem StatementCache.lookup_insert {α : Type} (c : StatementCache α) (q : String)
    (v : α) (hcap : c.capacity ≠ 0) :
    (c.insert q v).lookup q = some v := by
  have hk : (c.entries.filter (fun e => !(e.1 == q)) ++ [(q, v)]).length - c.capacity
      ≤ (c.entries.filter (fun e => !(e.1 == q))).length := by
    rw [List.length_append]
    simp only [List.length_singleton]
    omega
  have hfind := find_append_last
    ((c.entries.filter (fun e => !(e.1 == q))).drop
      ((c.entries.filter (fun e => !(e.1 == q)) ++ [(q, v)]).length - c.capacity))
    q v
    (fun e he => filter_ne_key c.entries q e (List.mem_of_mem_drop he))
  simp only [StatementCache.insert, StatementCache.lookup]
  rw [List.drop_append_of_le_length hk, hfind]
  rfl

/-- Modelled from the spec: a sqlite prepared-statement handle as the
executor sees it: its query text, whether it was prepared as persistent,
and whether its server-side cursor/bound-parameter state has been reset
since it last ran. -/
structure SqliteStatement where
  query : String
  persistent : Bool
  wasReset : Bool
deriving Repr, DecidableEq

/-- Modelled from the spec: `SqliteStatement::prepare` constructs a fresh
statement handle for `query` with the given persistence flag; the prepare
this issues against the server is recorded by the caller. -/
def SqliteStatement.prepare (query : String) (persistent : Bool) : SqliteStatement :=
  { query := query, persistent := persistent, wasReset := false }

/-- Modelled from the spec: `reset` clears the server-side cursor and
bound-parameter state of a previously executed statement. -/
def SqliteStatement.reset (s : SqliteStatement) : SqliteStatement :=
  { s with wasReset := true }

/-- The outcome of the executor-level prepare: the statement handed back,
the updated cache, the updated one-shot scratch slot, and the prepares
issued against the server (query text with persistence flag). -/
structure SqlitePrepareOut where
  result : SqliteStatement
  statements : StatementCache SqliteStatement
  statement : Option SqliteStatement
  prepares_sent : List (String × Bool)
deriving Repr, DecidableEq

/-- From sqlx-core/src/sqlite/connection/executor.rs, `prepare`: a
non-persistent call, or a zero-capacity cache, prepares a fresh one-shot
statement into the scratch slot and never touches the cache; otherwise
the cache is consulted by exact query text — a miss prepares persistently
and inserts, then the entry is fetched back (`get_mut`, which refreshes
recency; its `.unwrap()` panic is modelled as `none` and proved
unreachable), and only a pre-existing entry is reset before being
returned. -/
def prepare (statements : StatementCache SqliteStatement)
    (statement : Option SqliteStatement) (query : String) (persistent : Bool) :
    Option SqlitePrepareOut :=
  if !persistent || statements.capacity == 0 then
    let stmt := SqliteStatement.prepare query false
    some { result := stmt, statements := statements, statement := some stmt,
           prepares_sent := [(query, false)] }
  else
    let stmtExists := statements.contains_key query
    let statements1 :=
      if !stmtExists then
        statements.insert query (SqliteStatement.prepare query true)
      else statements
    let sent1 : List (String × Bool) :=
      if !stmtExists then [(query, true)] else []
    match statements1.lookup query with
    | none => none
    | some v =>
      let v1 := if stmtExists then v.reset else v
      some { result := v1, statements := statements1.touch query v1,
             statement := statement, prepares_sent := sent1 }

/-- Claim C7: prepare with persistent = false or a zero-capacity cache
returns a fresh one-shot statement and neither reads nor modifies the
cache; with a persistent call on a nonzero-capacity cache, a hit returns
the cached statement reset, issuing no prepare, and a miss prepares a
persistent statement, inserts it, and returns it. -/
theorem c7_prepare_cache_discipline (statements : StatementCache SqliteStatement)
    (scratch : Option SqliteStatement) (query : String) (persistent : Bool) :
    ((persistent = false ∨ statements.capacity = 0) →
       prepare statements scratch query persistent = some
         { result := SqliteStatement.prepare query false
           statements := statements
           statement := some (SqliteStatement.prepare query false)
           prepares_sent := [(query, false)] })
  ∧ (∀ v, persistent = true → statements.capacity ≠ 0 →
       statements.lookup query = some v →
       ∃ out, prepare statements scratch query persistent = some out
         ∧ out.result = v.reset
         ∧ out.prepares_sent = []
         ∧ out.statements.lookup query = some v.reset
         ∧ out.statement = scratch)
  ∧ (persistent = true → statements.capacity ≠ 0 →
       statements.lookup query = none →
       ∃ out, prepare statements scratch query persistent = some out
         ∧ out.result = SqliteStatement.prepare query true
         ∧ out.prepares_sent = [(query, true)]
         ∧ out.statements.lookup query = some out.result
         ∧ out.statement = scratch) := by
  refine ⟨?_, ?_, ?_⟩
  · intro h
    rcases h with hp | hcap
    · subst hp
      rfl
    · simp [prepare, hcap]
  · intro v hp hcap hlook
    subst hp
    have hcontains : statements.contains_key query = true := by
      rw [← StatementCache.lookup_isSome, hlook]
      rfl
    have hb : (!true || (statements.capacity == 0)) = false := by
      simp [hcap]
    refine ⟨{ result := v.reset, statements := statements.touch query v.reset,
              statement := scratch, prepares_sent := [] }, ?_, rfl, rfl,
            StatementCache.lookup_touch statements query v.reset, rfl⟩
    simp [prepare, hb, hcontains, hlook, hcap]
  · intro hp hcap hlook
    subst hp
    have hcontains : statements.contains_key query = false := by
      rw [← StatementCache.lookup_isSome, hlook]
      rfl
    have hb : (!true || (statements.capacity == 0)) = false := by
      simp [hcap]
    have hins := StatementCache.lookup_insert statements query
      (SqliteStatement.prepare query true) hcap
    refine ⟨{ result := SqliteStatement.prepare query true,
              statements := (statements.insert query
                (SqliteStatement.prepare query true)).touch query
                (SqliteStatement.prepare query true),
              statement := scratch, prepares_sent := [(query, true)] },
            ?_, rfl, rfl, StatementCache.lookup_touch _ query _, rfl⟩
    simp [prepare, hb, hcontains, hins, hcap]

/-- An empty sqlite statement cache of capacity 10. -/
def sampleSqliteCache : StatementCache SqliteStatement :=
  { capacity := 10, entries := [] }

/-- Witness for C7: a persistent miss on an empty cache prepares, inserts,
and returns the statement. -/
theorem c7_prepare_cache_discipline_witness :
    ∃ out, prepare sampleSqliteCache none "SELECT 1" true = some out
      ∧ out.result = SqliteStatement.prepare "SELECT 1" true
      ∧ out.prepares_sent = [("SELECT 1", true)]
      ∧ out.statements.lookup "SELECT 1" = some out.result
      ∧ out.statement = none :=
  (c7_prepare_cache_discipline sampleSqliteCache none "SELECT 1" true).2.2
    rfl (by decide) rfl

/-- From sqlx-mysql/src/connection/mod.rs, `cached_statements_size`. -/
def MySqlConnection.cached_statements_size (conn : MySqlConnection) : Nat :=
  conn.cache_statement.len

/-- From sqlx-mysql/src/connection/mod.rs, the loop body of
`clear_cached_statements`: pop the least-recently-used entry and send one
`StmtClose` for its statement id, until the cache is empty. `sendOk i`
stands for the outcome of the i-th send; a failed send aborts the loop
with the error after the entry was popped but with no packet delivered.
Returns the packets delivered, the remaining entries, and whether the
loop completed without error. -/
def clearLoop (sendOk : Nat → Bool) :
    Nat → List (String × Nat) → List MySqlPacket × List (String × Nat) × Bool
  | _, [] => ([], [], true)
  | i, e :: rest =>
    if sendOk i then
      let r := clearLoop sendOk (i + 1) rest
      (MySqlPacket.stmtClose e.2 :: r.1, r.2.1, r.2.2)
    else ([], rest, false)

/-- From sqlx-mysql/src/connection/mod.rs, `clear_cached_statements`:
drain the cache LRU-first, sending one deallocation per removed entry;
the flag tells whether it returned successfully. -/
def clear_cached_statements (sendOk : Nat → Bool) (conn : MySqlConnection) :
    MySqlConnection × Bool :=
  let r := clearLoop sendOk 0 conn.cache_statement.entries
  ({ conn with
      cache_statement := { conn.cache_statement with entries := r.2.1 },
      stream := { conn.stream with wbuf := conn.stream.wbuf ++ r.1 } }, r.2.2)

/-- A completed clear loop delivered exactly one StmtClose per entry, in
order, and left nothing behind. -/
theorem clearLoop_complete (sendOk : Nat → Bool) (l : List (String × Nat)) (i : Nat)
    (hflag : (clearLoop sendOk i l).2.2 = true) :
    clearLoop sendOk i l
      = (l.map (fun e => MySqlPacket.stmtClose e.2), [], true) := by
  induction l generalizing i with
  | nil => rfl
  | cons e rest ih =>
    cases hs : sendOk i with
    | true =>
      have hflag1 : (clearLoop sendOk (i + 1) rest).2.2 = true := by
        simpa [clearLoop, hs] using hflag
      have hrec := ih (i + 1) hflag1
      simp [clearLoop, hs, hrec]
    | false =>
      exfalso
      simp [clearLoop, hs] at hflag

/-- Claim C8: when clear_cached_statements returns successfully, every
entry has been removed (the cache size is 0) and exactly one StmtClose
carrying that entry's statement id was sent per removed entry, in LRU
order; the rest of the connection is untouched. -/
theorem c8_clear_cached_statements_spec (conn conn' : MySqlConnection)
    (sendOk : Nat → Bool)
    (h : clear_cached_statements sendOk conn = (conn', true)) :
    conn'.cached_statements_size = 0
  ∧ conn'.cache_statement.entries = []
  ∧ conn'.stream.wbuf = conn.stream.wbuf
      ++ conn.cache_statement.entries.map (fun e => MySqlPacket.stmtClose e.2)
  ∧ conn'.transaction_depth = conn.transaction_depth := by
  have hflag : (clearLoop sendOk 0 conn.cache_statement.entries).2.2 = true := by
    have hsnd := congrArg Prod.snd h
    simpa [clear_cached_statements] using hsnd
  have hrun := clearLoop_complete sendOk conn.cache_statement.entries 0 hflag
  have hc := congrArg Prod.fst h
  simp only [clear_cached_statements, hrun] at hc
  subst hc
  exact ⟨rfl, rfl, rfl, rfl⟩

/-- A connection holding two cached statements (ids 4 and 9). -/
def c8conn : MySqlConnection :=
  { stream := { waiting := [], sequence_id := 0, wbuf := [], replies_read := 0 },
    transaction_depth := 0,
    cache_statement :=
      { capacity := 10, entries := [("SELECT 1", 4), ("SELECT 2", 9)] } }

/-- The connection after clearing both cached statements. -/
def c8connCleared : MySqlConnection :=
  { stream :=
      { waiting := []
        sequence_id := 0
        wbuf := [MySqlPacket.stmtClose 4, MySqlPacket.stmtClose 9]
        replies_read := 0 }
    transaction_depth := 0
    cache_statement := { capacity := 10, entries := [] } }

/-- Witness for C8 on the two-entry connection with all sends succeeding. -/
theorem c8_clear_cached_statements_spec_witness :
    c8connCleared.cached_statements_size = 0
  ∧ c8connCleared.cache_statement.entries = []
  ∧ c8connCleared.stream.wbuf = c8conn.stream.wbuf
      ++ c8conn.cache_statement.entries.map (fun e => MySqlPacket.stmtClose e.2)
  ∧ c8connCleared.transaction_depth = c8conn.transaction_depth :=
  c8_clear_cached_statements_spec c8conn c8connCleared (fun _ => true) (by decide)

/-- From sqlx-mysql (connect options): the username, the optional
password, and the optional database of the caller's configuration. -/
structure MySqlConnectOptions where
  username : String
  password : Option String
  database : Option String
deriving Repr, DecidableEq

/-- From sqlx-mysql, `MySqlConnectOptions::get_password`. -/
def MySqlConnectOptions.get_password (o : MySqlConnectOptions) : Option String :=
  o.password

/-- From sqlx-mysql, `MySqlConnectOptions::get_username`. -/
def MySqlConnectOptions.get_username (o : MySqlConnectOptions) : String :=
  o.username

/-- From sqlx-mysql, `MySqlConnectOptions::get_database`. -/
def MySqlConnectOptions.get_database (o : MySqlConnectOptions) : Option String :=
  o.database

/-- Modelled from the spec: an authentication plugin strategy: its wire
name and `invoke(nonce, password) -> initial_response_bytes`. -/
structure AuthPlugin where
  name : String
  invoke : List Nat → String → List Nat

/-- Modelled from the spec: the stand-in for the single-round salted hash
of mysql_native_password (only its dependence on nonce and password
matters to the claims here, never the concrete hash bytes). -/
def nativeScrambleBytes (nonce : List Nat) (password : String) : List Nat :=
  (password.toList.map Char.toNat) ++ nonce

/-- Modelled from the spec and the repository mock tests: the
mysql_native_password initial response: a zero-length auth response for
the empty (or unconfigured) password, else the scramble of password and
nonce. -/
def nativePasswordInvoke (nonce : List Nat) (password : String) : List Nat :=
  if password = "" then [] else nativeScrambleBytes nonce password

/-- The mysql_native_password plugin value. -/
def mysqlNativePassword : AuthPlugin :=
  { name := "mysql_native_password", invoke := nativePasswordInvoke }

/-- From sqlx-mysql/src/protocol (Handshake): the server capabilities,
connection id, offered auth plugin, and its challenge nonce. -/
structure Handshake where
  capabilities : Nat
  connection_id : Nat
  auth_plugin : AuthPlugin
  auth_plugin_data : List Nat

/-- From sqlx-mysql/src/connection/connect.rs: the handshake response
packet written back to the server. -/
structure HandshakeResponse where
  capabilities : Nat
  auth_plugin_name : String
  auth_response : List Nat
  charset : Nat
  database : Option String
  max_packet_size : Nat
  username : String

/-- The CONNECT_WITH_DB capability bit. -/
def CONNECT_WITH_DB : Nat := 8

/-- From sqlx-mysql/src/connection/connect.rs, `handle_handshake`: turn
on CONNECT_WITH_DB, intersect with the server capabilities, store the
connection id, derive the initial auth response by invoking the plugin
with the configured password or — by `unwrap_or_default()` — the empty
string when none is configured, and write the handshake response packet.
It yields the new client capabilities, the stored connection id, and the
packet written; no error arises on this path. -/
def handle_handshake (clientCaps : Nat) (options : MySqlConnectOptions)
    (handshake : Handshake) : Nat × Nat × HandshakeResponse :=
  let caps1 := clientCaps ||| CONNECT_WITH_DB
  let caps2 := caps1 &&& handshake.capabilities
  let initial_auth_response :=
    handshake.auth_plugin.invoke handshake.auth_plugin_data
      (options.get_password.getD "")
  (caps2, handshake.connection_id,
   { capabilities := caps2
     auth_plugin_name := handshake.auth_plugin.name
     auth_response := initial_auth_response
     charset := 45
     database := options.get_database
     max_packet_size := 1024
     username := options.get_username })

/-- From sqlx-core/src/mysql/connection/establish.rs, the
AuthSwitchRequest branch: the response to a plugin switch is the new
plugin's scramble of the configured password or — by
`unwrap_or_default()` — the empty string when none is configured. -/
def auth_switch_response (options : MySqlConnectOptions) (plugin : AuthPlugin)
    (nonce : List Nat) : List Nat :=
  plugin.invoke nonce (options.password.getD "")

/-- Connect options with no configured password. -/
def c9options : MySqlConnectOptions :=
  { username := "root", password := none, database := none }

/-- A native-password handshake with the fixture salt `4bo+$r4H`. -/
def c9handshake : Handshake :=
  { capabilities := 65535
    connection_id := 41
    auth_plugin := mysqlNativePassword
    auth_plugin_data := [52, 98, 111, 43, 36, 114, 52, 72] }

/-- Counterexample for C9: with no configured password and a server
offering mysql_native_password, handle_handshake raises no error and
writes a handshake response whose credential is exactly the plugin's
response for the empty password (here the empty credential), identical to
what an explicitly configured empty password produces, instead of failing
with an authentication error. -/
theorem c9_counterexample :
    c9options.password = none
  ∧ (handle_handshake 0 c9options c9handshake).2.2.auth_response
      = mysqlNativePassword.invoke c9handshake.auth_plugin_data ""
  ∧ (handle_handshake 0 c9options c9handshake).2.2.auth_response = []
  ∧ handle_handshake 0 c9options c9handshake
      = handle_handshake 0 { c9options with password := some "" } c9handshake :=
  ⟨rfl, rfl, rfl, rfl⟩

/-- Claim C9 (amended): the establish path treats an unconfigured
password exactly as an explicitly configured empty password: with no
password, the handshake response (and likewise any auth-switch response)
carries the credential the plugin derives from the empty string, written
without any client-side authentication error; a password-requiring server
must itself reject it afterwards with a server-reported error. -/
theorem c9_missing_password_defaults_empty (clientCaps : Nat)
    (options : MySqlConnectOptions) (handshake : Handshake)
    (plugin : AuthPlugin) (nonce : List Nat)
    (h : options.password = none) :
    handle_handshake clientCaps options handshake
      = handle_handshake clientCaps { options with password := some "" } handshake
  ∧ (handle_handshake clientCaps options handshake).2.2.auth_response
      = handshake.auth_plugin.invoke handshake.auth_plugin_data ""
  ∧ auth_switch_response options plugin nonce = plugin.invoke nonce "" := by
  obtain ⟨u, p, db⟩ := options
  have hp : p = none := h
  subst hp
  exact ⟨rfl, rfl, rfl⟩

/-- Witness for C9 (amended) at the concrete passwordless options. -/
theorem c9_missing_password_defaults_empty_witness :
    handle_handshake 0 c9options c9handshake
      = handle_handshake 0 { c9options with password := some "" } c9handshake
  ∧ (handle_handshake 0 c9options c9handshake).2.2.auth_response
      = c9handshake.auth_plugin.invoke c9handshake.auth_plugin_data ""
  ∧ auth_switch_response c9options mysqlNativePassword [1, 2, 3]
      = mysqlNativePassword.invoke [1, 2, 3] "" :=
  c9_missing_password_defaults_empty 0 c9options c9handshake mysqlNativePassword
    [1, 2, 3] rfl

end Sqlx
